import Mathlib

/-!
# Verification of the teleprompt2api gateway (src/index.ts)

A shallow embedding of the request-translation and streaming-emulation
logic of the gateway.  JavaScript strings are embedded as `String` where
they are only carried around, and as `List Char` (lists of code units)
where the code slices or inspects them character by character (the
streaming chunk loop and the bearer-token prefix check).  The ambient
clock (`Math.floor(Date.now() / 1000)`) is made explicit: stream emission
takes a `clock : Nat → Nat` giving the reading observed at the n-th
emission, and the completion builder takes the reading `now` observed at
its single invocation.  Absent / `undefined` JavaScript values are
embedded as `Option`, and the `||` defaulting operator on strings is
`jsOr` (the empty string is falsy in JavaScript).
-/

namespace Teleprompt2api

set_option autoImplicit false

/-- JavaScript `a || b` for a string-or-undefined `a`: `undefined` and the
empty string are falsy and select the default. -/
def jsOr (a : Option String) (b : String) : String :=
  match a with
  | none => b
  | some s => if s = "" then b else s

/-! ## Model registry (CONFIG.MODEL_MAP, CONFIG.DEFAULT_MODEL) -/

/-- `CONFIG.DEFAULT_MODEL` from src/index.ts. -/
def DEFAULT_MODEL : String := "teleprompt-reason"

/-- Property access `CONFIG.MODEL_MAP[m]` on the object literal of
src/index.ts, embedded as a finite lookup. -/
def lookupModel (m : String) : Option String :=
  if m = "teleprompt-reason" then some "/api/v1/prompt/optimize_reason_auth"
  else if m = "teleprompt-standard" then some "/api/v1/prompt/optimize_auth"
  else if m = "teleprompt-apps" then some "/api/v1/prompt/optimize_apps_auth"
  else none

/-- The endpoint paths registered in `CONFIG.MODEL_MAP`. -/
def registeredEndpoints : List String :=
  ["/api/v1/prompt/optimize_reason_auth",
   "/api/v1/prompt/optimize_auth",
   "/api/v1/prompt/optimize_apps_auth"]

/-- `CONFIG.MODEL_MAP[model] || CONFIG.MODEL_MAP[CONFIG.DEFAULT_MODEL]`
where `model = body.model || CONFIG.DEFAULT_MODEL` (src/index.ts lines
140-141).  The endpoint strings are nonempty, so `||` on them is
`Option.orElse`. -/
def resolveEndpoint (modelField : Option String) : Option String :=
  (lookupModel (jsOr modelField DEFAULT_MODEL)).orElse fun _ =>
    lookupModel DEFAULT_MODEL

/-! ## Request parsing and routing (handleChatCompletions, lines 129-191) -/

/-- One element of `body.messages`. -/
structure Message where
  role : String
  content : String
deriving DecidableEq, Repr

/-- The parsed JSON body of a chat-completions request.  `model` and
`messages` may be absent; `stream` is the truthiness of `body.stream`. -/
structure ChatRequestBody where
  model : Option String
  messages : Option (List Message)
  stream : Bool
deriving DecidableEq, Repr

/-- Outcome of `await request.json()`: either the body failed to parse
(the promise rejected, landing in the catch block) or it parsed. -/
inductive ParsedBody where
  | malformed
  | parsed (body : ChatRequestBody)
deriving DecidableEq, Repr

/-- `messages.reverse().find(...)` selecting role "user" (line 133): the
last message with role "user", found by scanning the reversed list. -/
def findLastUser (messages : List Message) : Option Message :=
  messages.reverse.find? fun m => m.role == "user"

/-- What `handleChatCompletions` does before (or instead of) contacting
the upstream: either an immediate JSON error response, or an upstream
call carrying the payload text `{ text: prompt }`, together with the
model string and stream flag that the later response synthesis will
use. -/
inductive RouteResult where
  | errorResponse (status : Nat) (code : String)
  | callUpstream (endpoint : String) (payloadText : String) (model : String) (stream : Bool)
deriving DecidableEq, Repr

/-- The routing logic of `handleChatCompletions` (src/index.ts lines
129-147): a malformed body throws inside the try block and is converted
by the catch block into a 500 `generation_failed` response; a parsed
body with no user message yields 400 `invalid_request`; otherwise the
upstream is called with the content of the last user message. -/
def routeChatCompletions : ParsedBody → RouteResult
  | ParsedBody.malformed => RouteResult.errorResponse 500 "generation_failed"
  | ParsedBody.parsed body =>
    match findLastUser (body.messages.getD []) with
    | none => RouteResult.errorResponse 400 "invalid_request"
    | some lastMsg =>
      RouteResult.callUpstream
        ((resolveEndpoint body.model).getD "undefined")
        lastMsg.content
        (jsOr body.model DEFAULT_MODEL)
        body.stream

/-! ## Upstream response validation (lines 167-178) -/

/-- The parsed upstream JSON envelope: `success` and an optional `data`
string. -/
structure UpstreamEnvelope where
  success : Bool
  data : Option String
deriving DecidableEq, Repr

/-- JavaScript truthiness of the optional string `data.data`: absent
values and the empty string are falsy. -/
def jsTruthyStr : Option String → Bool
  | none => false
  | some s => !(s == "")

/-- `response.ok`: status in the range 200-299. -/
def responseOk (status : Nat) : Bool := 200 ≤ status && status < 300

/-- Outcome of validating the upstream response. -/
inductive UpstreamOutcome where
  | ok (text : String)
  | httpError (status : Nat) (body : String)
  | businessError (env : UpstreamEnvelope)
deriving DecidableEq, Repr

/-- Validation of the upstream response (src/index.ts lines 167-178):
a non-ok status throws `Upstream Error (status): body`; an ok status
whose envelope has falsy `success` or falsy `data` throws
`Upstream Business Error: envelope`; otherwise `data.data` is the
completion text. -/
def validateUpstream (status : Nat) (rawBody : String) (env : UpstreamEnvelope) :
    UpstreamOutcome :=
  if !responseOk status then UpstreamOutcome.httpError status rawBody
  else if !env.success || !jsTruthyStr env.data then UpstreamOutcome.businessError env
  else UpstreamOutcome.ok (env.data.getD "")

/-! ## Non-streaming response (handleNormalResponse, lines 196-209) -/

structure ChatMessage where
  role : String
  content : String
deriving DecidableEq, Repr

structure CompletionChoice where
  index : Nat
  message : ChatMessage
  finish_reason : String
deriving DecidableEq, Repr

structure Usage where
  prompt_tokens : Nat
  completion_tokens : Nat
  total_tokens : Nat
deriving DecidableEq, Repr

structure ChatCompletion where
  id : String
  object : String
  created : Nat
  model : String
  choices : List CompletionChoice
  usage : Usage
deriving DecidableEq, Repr

/-- The JSON object built by `handleNormalResponse` (src/index.ts lines
196-209).  `now` is the clock reading `Math.floor(Date.now() / 1000)`
observed during the invocation. -/
def buildCompletion (text model requestId : String) (now : Nat) : ChatCompletion :=
  { id := requestId
    object := "chat.completion"
    created := now
    model := model
    choices := [{ index := 0
                  message := { role := "assistant", content := text }
                  finish_reason := "stop" }]
    usage := { prompt_tokens := 0, completion_tokens := 0, total_tokens := 0 } }

/-! ## Streaming response (handleStreamResponse, lines 214-250) -/

structure Delta where
  content : Option (List Char)
deriving DecidableEq, Repr

structure ChunkChoice where
  index : Nat
  delta : Delta
  finish_reason : Option String
deriving DecidableEq, Repr

structure ChatCompletionChunk where
  id : String
  object : String
  created : Nat
  model : String
  choices : List ChunkChoice
deriving DecidableEq, Repr

/-- A content-bearing chunk as built inside the emission loop (lines
224-230): `delta.content` is the slice, `finish_reason` is null. -/
def contentChunk (requestId model : String) (created : Nat) (content : List Char) :
    ChatCompletionChunk :=
  { id := requestId
    object := "chat.completion.chunk"
    created := created
    model := model
    choices := [{ index := 0
                  delta := { content := some content }
                  finish_reason := none }] }

/-- The terminal chunk (lines 236-242): empty delta, finish_reason
"stop". -/
def endChunk (requestId model : String) (created : Nat) : ChatCompletionChunk :=
  { id := requestId
    object := "chat.completion.chunk"
    created := created
    model := model
    choices := [{ index := 0
                  delta := { content := none }
                  finish_reason := some "stop" }] }

/-- One record written to the outgoing event stream: either a
`data: <json-chunk>` record or the literal `data: [DONE]` sentinel. -/
inductive SSEEvent where
  | data (chunk : ChatCompletionChunk)
  | done
deriving DecidableEq, Repr

/-- The emission loop of `handleStreamResponse` (lines 221-233):
`for (let i = 0; i < text.length; i += chunkSize)` with `chunkSize = 2`,
emitting `text.slice(i, i + 2)` per iteration.  `k` counts the
iterations already performed, so the chunk of iteration `k` observes the
clock reading `clock k`. -/
def streamLoop (requestId model : String) (clock : Nat → Nat) :
    List Char → Nat → List SSEEvent
  | [], _ => []
  | [c], k => [SSEEvent.data (contentChunk requestId model (clock k) [c])]
  | c1 :: c2 :: rest, k =>
    SSEEvent.data (contentChunk requestId model (clock k) [c1, c2]) ::
      streamLoop requestId model clock rest (k + 1)

/-- The full event sequence written by `handleStreamResponse` (lines
219-250): all content chunks in loop order, then the terminal chunk
(whose clock reading is observed after the `ceil(length / 2)` loop
iterations), then the `[DONE]` sentinel, after which the writer is
closed. -/
def streamEvents (text : List Char) (requestId model : String) (clock : Nat → Nat) :
    List SSEEvent :=
  streamLoop requestId model clock text 0 ++
    [SSEEvent.data (endChunk requestId model (clock ((text.length + 1) / 2))),
     SSEEvent.done]

/-- The `delta.content` payloads of a list of events, in order. -/
def eventContents : List SSEEvent → List (List Char)
  | [] => []
  | SSEEvent.data c :: rest =>
    c.choices.filterMap (fun ch => ch.delta.content) ++ eventContents rest
  | SSEEvent.done :: rest => eventContents rest

/-- An event carrying a chunk with a present `delta.content`. -/
def isContentEvent : SSEEvent → Bool
  | SSEEvent.data c => c.choices.any fun ch => ch.delta.content.isSome
  | SSEEvent.done => false

/-- An event carrying a chunk with `finish_reason = "stop"`. -/
def isStopEvent : SSEEvent → Bool
  | SSEEvent.data c => c.choices.any fun ch => ch.finish_reason == some "stop"
  | SSEEvent.done => false

/-! ## Auth gate (handleApi, lines 82-94)

Header values are embedded as lists of code units because the gate
inspects them with `startsWith` and `substring`. -/

/-- The 7-code-unit prefix checked by `authHeader.startsWith(...)` with the literal "Bearer ". -/
def BEARER : List Char := ['B', 'e', 'a', 'r', 'e', 'r', ' ']

inductive AuthResult where
  | rejected (status : Nat) (code : String)
  | allowed
deriving DecidableEq, Repr

/-- `CONFIG.API_MASTER_KEY = process.env.API_MASTER_KEY || "1"` (line 19):
an absent or empty environment value falls back to the sentinel "1". -/
def loadMasterKey (env : Option (List Char)) : List Char :=
  match env with
  | none => ['1']
  | some s => if s = [] then ['1'] else s

/-- The auth gate of `handleApi` (src/index.ts lines 82-94).  The gate is
skipped when the key is falsy or equals the sentinel "1".  Otherwise an
absent header or one not starting with "Bearer " is rejected 401
(`h.take 7 = BEARER` embeds the startsWith check; an empty header
value, falsy in JavaScript, fails the same branch), a token
(`substring(7)`, i.e. `h.drop 7`) differing from the key is rejected
403, and a matching token is let through. -/
def authCheck (apiKey : List Char) (authHeader : Option (List Char)) : AuthResult :=
  if apiKey = [] ∨ apiKey = ['1'] then AuthResult.allowed
  else
    match authHeader with
    | none => AuthResult.rejected 401 "unauthorized"
    | some h =>
      if h.take 7 = BEARER then
        if h.drop 7 = apiKey then AuthResult.allowed
        else AuthResult.rejected 403 "invalid_api_key"
      else AuthResult.rejected 401 "unauthorized"

/-! ## Predicates stating spec claims, for comparison with the code -/

/-- The invariant claimed for one streaming response: all emitted chunks
carry the same `created` timestamp. -/
def chunksShareCreated (evs : List SSEEvent) : Prop :=
  ∀ c1 c2 : ChatCompletionChunk,
    SSEEvent.data c1 ∈ evs → SSEEvent.data c2 ∈ evs → c1.created = c2.created

/-- Acceptance of an upstream response as the spec words it: status 200
with `success = true` and non-absent `data`. -/
def specUpstreamAccepted (status : Nat) (env : UpstreamEnvelope) : Prop :=
  status = 200 ∧ env.success = true ∧ env.data.isSome = true

/-! ## Helper lemmas -/

theorem eventContents_append (evs1 evs2 : List SSEEvent) :
    eventContents (evs1 ++ evs2) = eventContents evs1 ++ eventContents evs2 := by
  induction evs1 with
  | nil => rfl
  | cons e rest ih => cases e <;> simp [eventContents, ih]

theorem streamLoop_contents (requestId model : String) (clock : Nat → Nat)
    (text : List Char) (k : Nat) :
    (eventContents (streamLoop requestId model clock text k)).flatten = text := by
  induction text, k using streamLoop.induct requestId model clock with
  | case1 k => simp [streamLoop, eventContents]
  | case2 c k => simp [streamLoop, eventContents, contentChunk]
  | case3 c1 c2 rest k ih => simp [streamLoop, eventContents, contentChunk, ih]

theorem streamLoop_countP_content (requestId model : String) (clock : Nat → Nat)
    (text : List Char) (k : Nat) :
    (streamLoop requestId model clock text k).countP isContentEvent =
      (text.length + 1) / 2 := by
  induction text, k using streamLoop.induct requestId model clock with
  | case1 k => simp [streamLoop]
  | case2 c k => simp [streamLoop, isContentEvent, contentChunk]
  | case3 c1 c2 rest k ih =>
    simp [streamLoop, List.countP_cons, ih, isContentEvent, contentChunk]
    omega

theorem streamLoop_countP_stop (requestId model : String) (clock : Nat → Nat)
    (text : List Char) (k : Nat) :
    (streamLoop requestId model clock text k).countP isStopEvent = 0 := by
  induction text, k using streamLoop.induct requestId model clock with
  | case1 k => simp [streamLoop]
  | case2 c k => simp [streamLoop, isStopEvent, contentChunk]
  | case3 c1 c2 rest k ih =>
    simp [streamLoop, List.countP_cons, ih, isStopEvent, contentChunk]

theorem streamLoop_mem (requestId model : String) (clock : Nat → Nat)
    (text : List Char) (k : Nat) (ch : ChatCompletionChunk)
    (h : SSEEvent.data ch ∈ streamLoop requestId model clock text k) :
    ch.id = requestId ∧ ch.model = model ∧
      ch.object = "chat.completion.chunk" ∧ ∃ n, ch.created = clock n := by
  induction text, k using streamLoop.induct requestId model clock with
  | case1 k => simp [streamLoop] at h
  | case2 c k =>
    simp only [streamLoop, List.mem_singleton, SSEEvent.data.injEq] at h
    subst h
    exact ⟨rfl, rfl, rfl, k, rfl⟩
  | case3 c1 c2 rest k ih =>
    simp only [streamLoop, List.mem_cons, SSEEvent.data.injEq] at h
    rcases h with h | h
    · subst h
      exact ⟨rfl, rfl, rfl, k, rfl⟩
    · exact ih h

theorem streamEvents_mem (text : List Char) (requestId model : String)
    (clock : Nat → Nat) (ch : ChatCompletionChunk)
    (h : SSEEvent.data ch ∈ streamEvents text requestId model clock) :
    ch.id = requestId ∧ ch.model = model ∧ ∃ n, ch.created = clock n := by
  unfold streamEvents at h
  rw [List.mem_append] at h
  rcases h with h | h
  · have := streamLoop_mem requestId model clock text 0 ch h
    exact ⟨this.1, this.2.1, this.2.2.2⟩
  · simp only [List.mem_cons, List.not_mem_nil, or_false] at h
    rcases h with h | h
    · injection h with h2
      subst h2
      exact ⟨rfl, rfl, (text.length + 1) / 2, rfl⟩
    · exact SSEEvent.noConfusion h

theorem find?_append_of_none {α : Type} (p : α → Bool) (xs ys : List α)
    (h : ∀ x ∈ xs, p x = false) :
    List.find? p (xs ++ ys) = List.find? p ys := by
  induction xs with
  | nil => rfl
  | cons a t ih =>
    rw [List.cons_append, List.find?_cons_of_neg _ (by simp [h a (List.mem_cons_self a t)])]
    exact ih fun x hx => h x (List.mem_cons_of_mem a hx)

theorem findLastUser_append (l1 l2 : List Message) (m : Message)
    (hm : m.role = "user") (hl2 : ∀ m2 ∈ l2, m2.role ≠ "user") :
    findLastUser (l1 ++ m :: l2) = some m := by
  unfold findLastUser
  rw [List.reverse_append, List.reverse_cons, List.append_assoc]
  rw [find?_append_of_none _ _ _
    (fun x hx => by simpa using hl2 x (List.mem_reverse.mp hx))]
  simp [List.find?_cons_of_pos, hm]

/-! ## Claim theorems -/

/-- C1: for every upstream text and every clock trace, the streaming
response reconstructs the text exactly: concatenating the
`delta.content` of all emitted chunks in emission order yields the text,
the number of content-bearing chunks is `ceil(length / 2)` (the chunk
size is the fixed constant 2), exactly one emitted chunk has
`finish_reason = "stop"`, the stream ends with the `[DONE]` sentinel,
the event right before the sentinel is the terminal chunk, and the
terminal chunk has an empty delta and `finish_reason = "stop"`. -/
theorem stream_roundtrip (text : List Char) (requestId model : String)
    (clock : Nat → Nat) :
    (eventContents (streamEvents text requestId model clock)).flatten = text ∧
    (streamEvents text requestId model clock).countP isContentEvent =
      (text.length + 1) / 2 ∧
    (streamEvents text requestId model clock).countP isStopEvent = 1 ∧
    (streamEvents text requestId model clock).getLast? = some SSEEvent.done ∧
    (streamEvents text requestId model clock).dropLast.getLast? =
      some (SSEEvent.data
        (endChunk requestId model (clock ((text.length + 1) / 2)))) ∧
    (endChunk requestId model (clock ((text.length + 1) / 2))).choices =
      [{ index := 0, delta := { content := none }, finish_reason := some "stop" }] := by
  refine ⟨?_, ?_, ?_, ?_, ?_, ?_⟩
  · rw [streamEvents, eventContents_append, List.flatten_append,
      streamLoop_contents]
    simp [eventContents, endChunk]
  · rw [streamEvents, List.countP_append, streamLoop_countP_content]
    simp [isContentEvent, endChunk]
  · rw [streamEvents, List.countP_append, streamLoop_countP_stop]
    simp [isStopEvent, endChunk]
  · rw [streamEvents, show
      [SSEEvent.data (endChunk requestId model (clock ((text.length + 1) / 2))),
        SSEEvent.done] =
      [SSEEvent.data (endChunk requestId model (clock ((text.length + 1) / 2)))] ++
        [SSEEvent.done] from rfl,
      ← List.append_assoc]
    exact List.getLast?_concat _
  · rw [streamEvents, show
      [SSEEvent.data (endChunk requestId model (clock ((text.length + 1) / 2))),
        SSEEvent.done] =
      [SSEEvent.data (endChunk requestId model (clock ((text.length + 1) / 2)))] ++
        [SSEEvent.done] from rfl,
      ← List.append_assoc, List.dropLast_concat]
    exact List.getLast?_concat _
  · rfl

/-- C2 counterexample: the `created` timestamp is not fixed once at the
start of the response — `Math.floor(Date.now() / 1000)` is evaluated
anew inside the loop for every chunk, so a clock that advances by one
second between the first and second emission yields chunks with
different `created` values. -/
theorem stream_created_not_fixed :
    ¬ chunksShareCreated (streamEvents ['a', 'b', 'c'] "req-0" "m" (fun n => n)) := by
  intro h
  have h01 := h (contentChunk "req-0" "m" 0 ['a', 'b'])
    (contentChunk "req-0" "m" 1 ['c'])
    (by simp [streamEvents, streamLoop])
    (by simp [streamEvents, streamLoop])
  simp [contentChunk] at h01

/-- C2 amended: every chunk of one streaming response (content chunks
and the terminal chunk alike) carries the requestId as its `id`, fixed
at the start of the response; `created` is sampled from the clock at
each emission separately, so all chunks share one `created` value
exactly when the clock reading does not change during emission. -/
theorem stream_id_shared (text : List Char) (requestId model : String)
    (clock : Nat → Nat) :
    (∀ ch : ChatCompletionChunk,
      SSEEvent.data ch ∈ streamEvents text requestId model clock →
        ch.id = requestId) ∧
    (∀ t : Nat, (∀ n, clock n = t) →
      ∀ ch : ChatCompletionChunk,
        SSEEvent.data ch ∈ streamEvents text requestId model clock →
          ch.created = t) := by
  constructor
  · intro ch hch
    exact (streamEvents_mem text requestId model clock ch hch).1
  · intro t ht ch hch
    obtain ⟨n, hn⟩ := (streamEvents_mem text requestId model clock ch hch).2.2
    rw [hn, ht n]

theorem stream_id_shared_witness :
    (contentChunk "req-0" "m" 7 ['h', 'i']).id = "req-0" ∧
    (contentChunk "req-0" "m" 7 ['h', 'i']).created = 7 := by
  constructor
  · exact (stream_id_shared ['h', 'i'] "req-0" "m" (fun _ => 7)).1
      (contentChunk "req-0" "m" 7 ['h', 'i']) (by simp [streamEvents, streamLoop])
  · exact (stream_id_shared ['h', 'i'] "req-0" "m" (fun _ => 7)).2 7 (fun _ => rfl)
      (contentChunk "req-0" "m" 7 ['h', 'i']) (by simp [streamEvents, streamLoop])

/-- C3 counterexample: a 200 response whose envelope has `success = true`
and `data` present but equal to the empty string is accepted by the
claim (`data` is non-absent), yet the code rejects it: `!data.data` is
true for the empty string, which is falsy in JavaScript, so line 174
raises the business error. -/
theorem upstream_empty_data_counterexample :
    specUpstreamAccepted 200 { success := true, data := some "" } ∧
    validateUpstream 200 "" { success := true, data := some "" } =
      UpstreamOutcome.businessError { success := true, data := some "" } := by
  exact ⟨⟨rfl, rfl, rfl⟩, rfl⟩

/-- C3 amended: the upstream call fails with the http error (carrying
the status and the raw body) exactly when the status is not a success
(2xx) status; with a success status it fails with the business error
(carrying the envelope) exactly when `success` is false or `data` is
absent or empty; a success status with `success = true` and nonempty
`data` is accepted and its `data` string becomes the completion text. -/
theorem upstream_validation (status : Nat) (rawBody : String)
    (env : UpstreamEnvelope) :
    (responseOk status = false →
      validateUpstream status rawBody env = UpstreamOutcome.httpError status rawBody) ∧
    (responseOk status = true →
      (env.success = false ∨ env.data = none ∨ env.data = some "") →
        validateUpstream status rawBody env = UpstreamOutcome.businessError env) ∧
    (∀ s : String, responseOk status = true → env.success = true →
      env.data = some s → s ≠ "" →
        validateUpstream status rawBody env = UpstreamOutcome.ok s) := by
  refine ⟨?_, ?_, ?_⟩
  · intro hok
    simp [validateUpstream, hok]
  · intro hok hbad
    rcases hbad with hs | hd | hd
    · simp [validateUpstream, hok, hs, jsTruthyStr]
    · simp [validateUpstream, hok, hd, jsTruthyStr]
    · simp [validateUpstream, hok, hd, jsTruthyStr]
  · intro s hok hs hd hne
    simp [validateUpstream, hok, hs, hd, jsTruthyStr, hne]

theorem upstream_validation_witness :
    validateUpstream 200 "" { success := true, data := some "hi" } =
      UpstreamOutcome.ok "hi" :=
  (upstream_validation 200 "" { success := true, data := some "hi" }).2.2
    "hi" (by decide) rfl rfl (by decide)

/-- C4 counterexample: a malformed request body makes `request.json()`
throw inside the try block, which the catch block converts into the 500
`generation_failed` error — not the 400 `invalid_request` error the
claim requires. -/
theorem malformed_body_counterexample :
    routeChatCompletions ParsedBody.malformed =
      RouteResult.errorResponse 500 "generation_failed" ∧
    routeChatCompletions ParsedBody.malformed ≠
      RouteResult.errorResponse 400 "invalid_request" := by
  exact ⟨rfl, by decide⟩

/-- C4 amended: a request whose body parses but whose messages list
(defaulted to empty when absent) contains no message with role "user"
receives exactly the 400 `invalid_request` error; a request whose body
is malformed instead receives the 500 `generation_failed` error. -/
theorem invalid_request_on_no_user (body : ChatRequestBody)
    (h : ∀ m ∈ body.messages.getD [], m.role ≠ "user") :
    routeChatCompletions (ParsedBody.parsed body) =
      RouteResult.errorResponse 400 "invalid_request" ∧
    routeChatCompletions ParsedBody.malformed =
      RouteResult.errorResponse 500 "generation_failed" := by
  constructor
  · have hnone : findLastUser (body.messages.getD []) = none := by
      apply List.find?_eq_none.mpr
      intro m hm
      simpa using h m (List.mem_reverse.mp hm)
    simp [routeChatCompletions, hnone]
  · rfl

theorem invalid_request_on_no_user_witness :
    routeChatCompletions
      (ParsedBody.parsed
        { model := none, messages := some [{ role := "system", content := "x" }],
          stream := false }) =
      RouteResult.errorResponse 400 "invalid_request" :=
  (invalid_request_on_no_user
    { model := none, messages := some [{ role := "system", content := "x" }],
      stream := false } (by decide)).1

theorem loadMasterKey_ne_nil (env : Option (List Char)) : loadMasterKey env ≠ [] := by
  cases env with
  | none => simp [loadMasterKey]
  | some s =>
    simp only [loadMasterKey]
    split
    · simp
    · assumption

/-- C5: with the master key loaded from the environment, a configured
key different from the sentinel "1" makes the gate reject every request
whose Authorization header is not exactly `Bearer <key>` with 401
(missing or malformed header) or 403 (token mismatch), while a request
carrying exactly `Bearer <key>` is never rejected; a key equal to the
sentinel disables the gate entirely. -/
theorem auth_gate (env authHeader : Option (List Char)) :
    (loadMasterKey env ≠ ['1'] →
      (authHeader ≠ some (BEARER ++ loadMasterKey env) →
        authCheck (loadMasterKey env) authHeader =
          AuthResult.rejected 401 "unauthorized" ∨
        authCheck (loadMasterKey env) authHeader =
          AuthResult.rejected 403 "invalid_api_key") ∧
      authCheck (loadMasterKey env) (some (BEARER ++ loadMasterKey env)) =
        AuthResult.allowed) ∧
    (loadMasterKey env = ['1'] →
      authCheck (loadMasterKey env) authHeader = AuthResult.allowed) := by
  have hnil : loadMasterKey env ≠ [] := loadMasterKey_ne_nil env
  constructor
  · intro hne
    have hcond : ¬(loadMasterKey env = [] ∨ loadMasterKey env = ['1']) := by
      tauto
    constructor
    · intro hhdr
      unfold authCheck
      rw [if_neg hcond]
      cases authHeader with
      | none => left; rfl
      | some h =>
        by_cases h7 : h.take 7 = BEARER
        · by_cases hdrop : h.drop 7 = loadMasterKey env
          · exfalso
            apply hhdr
            have hEq : h = BEARER ++ loadMasterKey env := by
              conv_lhs => rw [← List.take_append_drop 7 h]
              rw [h7, hdrop]
            rw [hEq]
          · right; simp [h7, hdrop]
        · left; simp [h7]
    · have ht : (BEARER ++ loadMasterKey env).take 7 = BEARER := by
        have h7 : (7 : Nat) = BEARER.length := rfl
        rw [h7, List.take_left]
      have hd : (BEARER ++ loadMasterKey env).drop 7 = loadMasterKey env := by
        have h7 : (7 : Nat) = BEARER.length := rfl
        rw [h7, List.drop_left]
      unfold authCheck
      rw [if_neg hcond]
      simp [ht, hd]
  · intro h1
    unfold authCheck
    rw [if_pos (Or.inr h1)]

theorem auth_gate_witness :
    authCheck (loadMasterKey (some ['k'])) (some (BEARER ++ ['k'])) =
      AuthResult.allowed ∧
    authCheck (loadMasterKey (some ['k'])) (some ['x']) =
      AuthResult.rejected 401 "unauthorized" := by
  constructor
  · have h := (auth_gate (some ['k']) none).1 (by decide)
    exact h.2
  · have h := ((auth_gate (some ['k']) (some ['x'])).1 (by decide)).1 (by decide)
    rcases h with h | h
    · exact h
    · exact absurd h (by decide)

/-- C6 counterexample: building the non-streaming ChatCompletion is not
deterministic in (text, model, requestId) alone — `handleNormalResponse`
samples `Math.floor(Date.now() / 1000)` for `created`, so two
invocations with identical text, model and requestId but clock readings
0 and 1 produce different objects. -/
theorem buildCompletion_not_deterministic :
    buildCompletion "a" "m" "r" 0 ≠ buildCompletion "a" "m" "r" 1 := by
  decide

/-- C6 amended: building the non-streaming ChatCompletion is a pure,
total function of text, model, requestId and the clock reading observed
at the invocation: every field except `created` is determined by
(text, model, requestId) alone, and `created` equals the clock
reading. -/
theorem buildCompletion_deterministic (text model requestId : String)
    (now1 now2 : Nat) :
    (buildCompletion text model requestId now1).id =
      (buildCompletion text model requestId now2).id ∧
    (buildCompletion text model requestId now1).object =
      (buildCompletion text model requestId now2).object ∧
    (buildCompletion text model requestId now1).model =
      (buildCompletion text model requestId now2).model ∧
    (buildCompletion text model requestId now1).choices =
      (buildCompletion text model requestId now2).choices ∧
    (buildCompletion text model requestId now1).usage =
      (buildCompletion text model requestId now2).usage ∧
    (buildCompletion text model requestId now1).created = now1 :=
  ⟨rfl, rfl, rfl, rfl, rfl, rfl⟩

/-- C7: for every text (the empty string included), the non-streaming
completion carries the text verbatim as `choices[0].message.content`,
with object "chat.completion", a single choice of index 0, role
"assistant", finish_reason "stop", and zeroed usage counters. -/
theorem completion_shape (text model requestId : String) (now : Nat) :
    ((buildCompletion text model requestId now).choices.head?.map
      fun ch => ch.message.content) = some text ∧
    (buildCompletion text model requestId now).object = "chat.completion" ∧
    (buildCompletion text model requestId now).choices =
      [{ index := 0
         message := { role := "assistant", content := text }
         finish_reason := "stop" }] ∧
    (buildCompletion text model requestId now).usage =
      { prompt_tokens := 0, completion_tokens := 0, total_tokens := 0 } :=
  ⟨rfl, rfl, rfl, rfl⟩

/-- C8: for every messages sequence containing at least one user
message — decomposed as `l1 ++ m :: l2` where `m` has role "user" and
nothing after it does, so `m` is the most recent user message — the
upstream payload text is exactly the content of `m`; earlier user
messages (inside `l1`) and non-user messages contribute nothing. -/
theorem payload_last_user (modelField : Option String) (stream : Bool)
    (l1 l2 : List Message) (m : Message) (hm : m.role = "user")
    (hl2 : ∀ m2 ∈ l2, m2.role ≠ "user") :
    routeChatCompletions
      (ParsedBody.parsed
        { model := modelField, messages := some (l1 ++ m :: l2), stream := stream }) =
      RouteResult.callUpstream ((resolveEndpoint modelField).getD "undefined")
        m.content (jsOr modelField DEFAULT_MODEL) stream := by
  simp [routeChatCompletions, findLastUser_append l1 l2 m hm hl2]

theorem payload_last_user_witness :
    routeChatCompletions
      (ParsedBody.parsed
        { model := none,
          messages := some [{ role := "user", content := "a" },
                            { role := "system", content := "b" },
                            { role := "user", content := "c" }],
          stream := false }) =
      RouteResult.callUpstream "/api/v1/prompt/optimize_reason_auth" "c"
        "teleprompt-reason" false := by
  have h := payload_last_user none false
    [{ role := "user", content := "a" }, { role := "system", content := "b" }] []
    { role := "user", content := "c" } rfl (by simp)
  exact h

/-- C9: model resolution is total — every model field value, absent,
empty or unknown included, resolves to some endpoint registered in
`CONFIG.MODEL_MAP`; when the value is absent or not a key of the
registry, the endpoint of the default model is returned. -/
theorem resolve_total (modelField : Option String) :
    (∃ e, resolveEndpoint modelField = some e ∧ e ∈ registeredEndpoints) ∧
    (modelField = none →
      resolveEndpoint modelField = some "/api/v1/prompt/optimize_reason_auth") ∧
    (∀ m : String, modelField = some m → lookupModel m = none →
      resolveEndpoint modelField = some "/api/v1/prompt/optimize_reason_auth") := by
  refine ⟨?_, ?_, ?_⟩
  · unfold resolveEndpoint
    cases hl : lookupModel (jsOr modelField DEFAULT_MODEL) with
    | some e =>
      refine ⟨e, rfl, ?_⟩
      unfold lookupModel at hl
      split_ifs at hl with h1 h2 h3
      · cases hl; decide
      · cases hl; decide
      · cases hl; decide
    | none =>
      exact ⟨"/api/v1/prompt/optimize_reason_auth", by decide, by decide⟩
  · intro h
    subst h
    decide
  · intro m hmf hnone
    subst hmf
    by_cases hm0 : m = ""
    · subst hm0
      decide
    · unfold resolveEndpoint
      have hjs : jsOr (some m) DEFAULT_MODEL = m := by simp [jsOr, hm0]
      rw [hjs, hnone]
      decide

theorem resolve_total_witness :
    resolveEndpoint (some "nope") = some "/api/v1/prompt/optimize_reason_auth" :=
  (resolve_total (some "nope")).2.2 "nope" rfl (by decide)

/-- C10 counterexample: the model value "" is not a key of the registry,
yet a request naming it gets the default model id "teleprompt-reason"
echoed back, not the client-supplied string "" — `body.model ||
CONFIG.DEFAULT_MODEL` treats the empty string as absent. -/
theorem model_echo_counterexample :
    lookupModel "" = none ∧
    routeChatCompletions
      (ParsedBody.parsed
        { model := some "", messages := some [{ role := "user", content := "hi" }],
          stream := false }) =
      RouteResult.callUpstream "/api/v1/prompt/optimize_reason_auth" "hi"
        "teleprompt-reason" false ∧
    ("teleprompt-reason" : String) ≠ "" := by
  refine ⟨by decide, by decide, by decide⟩

/-- C10 amended: for every request naming a nonempty unregistered model
M (and containing a user message), the upstream call uses the default
endpoint of the default model while the model string carried into both response
modes is M itself: the `model` field of the non-streaming completion is M
and the `model` field of every streaming chunk is M.  The fallback applies only
to endpoint selection, never to the echoed model name. -/
theorem model_echo (M : String) (hne : M ≠ "") (hunreg : lookupModel M = none)
    (msgs : List Message) (m : Message) (stream : Bool)
    (hfind : findLastUser msgs = some m) :
    routeChatCompletions
      (ParsedBody.parsed { model := some M, messages := some msgs, stream := stream }) =
      RouteResult.callUpstream "/api/v1/prompt/optimize_reason_auth" m.content
        M stream ∧
    (∀ text requestId : String, ∀ now : Nat,
      (buildCompletion text M requestId now).model = M) ∧
    (∀ text : List Char, ∀ requestId : String, ∀ clock : Nat → Nat,
      ∀ ch : ChatCompletionChunk,
        SSEEvent.data ch ∈ streamEvents text requestId M clock → ch.model = M) := by
  refine ⟨?_, fun _ _ _ => rfl,
    fun text requestId clock ch h =>
      (streamEvents_mem text requestId M clock ch h).2.1⟩
  have hres : resolveEndpoint (some M) = some "/api/v1/prompt/optimize_reason_auth" := by
    unfold resolveEndpoint
    have hjs : jsOr (some M) DEFAULT_MODEL = M := by simp [jsOr, hne]
    rw [hjs, hunreg]
    decide
  simp [routeChatCompletions, hfind, hres, jsOr, hne]

theorem model_echo_witness :
    routeChatCompletions
      (ParsedBody.parsed
        { model := some "custom-model",
          messages := some [{ role := "user", content := "hi" }], stream := true }) =
      RouteResult.callUpstream "/api/v1/prompt/optimize_reason_auth" "hi"
        "custom-model" true :=
  (model_echo "custom-model" (by decide) (by decide)
    [{ role := "user", content := "hi" }] { role := "user", content := "hi" }
    true (by decide)).1

end Teleprompt2api
